import Mathlib

/-!
# Session and catalog controller (`client/src/App.jsx`)

A shallow embedding of the React component `App` and of its two forms `Login` and
`Register`.  React state, `window.localStorage` and the ordered list of side effects
(network requests, state writes, storage writes, console output) are carried in an
explicit `World`.  An `async` function is a function of the world it starts in and of the
outcome of every network call it awaits; the synchronous prefix of `login` and `register`
(everything before the first `await`) is a separate definition, because the form handlers
run that prefix and then continue with their own statements before the awaited response is
handled.
-/

set_option autoImplicit false

namespace App

/-! ## JavaScript values -/

/-- The integers a JavaScript number holds exactly (up to `Number.MAX_SAFE_INTEGER` in
magnitude); all of them print in plain decimal. -/
abbrev SafeInteger := { n : Int // n.natAbs ≤ 9007199254740991 }

/-- JavaScript primitive values. Numbers are restricted to safe integers (identifiers and
counters); other numbers are outside the model. -/
inductive JsVal where
  | undefined
  | null
  | bool (b : Bool)
  | num (n : SafeInteger)
  | str (s : String)
  deriving DecidableEq, Repr

/-- A parsed JSON object: its fields in order, each holding a primitive. -/
abbrev JsObject := List (String × JsVal)

/-- Property read `o.k` on an object; a missing property reads as `undefined`. -/
def JsObject.get (o : JsObject) (k : String) : JsVal :=
  match o.lookup k with
  | some v => v
  | none => .undefined

/-- JavaScript truthiness, as used by `if (x)`, `!x` and `x && y`. -/
def truthy : JsVal → Bool
  | .undefined => false
  | .null => false
  | .bool b => b
  | .num n => n.val != 0
  | .str s => s != ""

/-- The `String(v)` conversion applied by `localStorage.setItem` to its value. -/
def JsVal.toJsString : JsVal → String
  | .undefined => "undefined"
  | .null => "null"
  | .bool true => "true"
  | .bool false => "false"
  | .num n => toString n.val
  | .str s => s

/-- The `length` of a JavaScript string: its number of UTF-16 code units. -/
def jsLength (s : String) : Nat :=
  (s.toList.map (fun c => if c.toNat < 65536 then 1 else 2)).sum

/-- A value `JSON.parse` can deliver, as far as the program tells values apart: `null`, a
boolean, a number, a string, an array of primitives, or an object with primitive fields. -/
inductive Json where
  | null
  | bool (b : Bool)
  | num (n : SafeInteger)
  | str (s : String)
  | arr (items : List JsVal)
  | obj (fields : JsObject)
  deriving DecidableEq, Repr

/-- Exceptions the modelled code can raise. `syntaxError` is the rejection of
`response.json()` on a body that is not JSON, `typeError` a property read on `null`. -/
inductive JsError where
  | fetchRejected
  | syntaxError
  | typeError
  | referenceError (name : String)
  deriving DecidableEq, Repr

/-- The value of `json.k` when the read does not throw: the field of an object, and
`undefined` on anything else (the names the program reads, `error` and `token`, are not
properties of booleans, numbers, strings or arrays). -/
def Json.field (json : Json) (k : String) : JsVal :=
  match json with
  | .obj fields => fields.get k
  | _ => .undefined

/-- Property read `json.k` on a parsed payload: a TypeError on `null`. -/
def Json.prop (json : Json) (k : String) : Except JsError JsVal :=
  match json with
  | .null => .error .typeError
  | _ => .ok (json.field k)

/-! ## Network -/

/-- The arguments of one `fetch` call. A template-literal URL is kept as its list of parts
(the URL is the concatenation of their string conversions); `body` is the object handed to
`JSON.stringify`. -/
structure Request where
  url : List JsVal
  method : String := "GET"
  body : Option JsObject := none
  headers : List (String × JsVal) := []
  deriving DecidableEq, Repr

/-- A response as the code reads it: whether `response.ok` holds, and what
`await response.json()` delivers, `none` when the body is not JSON and the promise of
`response.json()` rejects. An OK response carries the payload shape of its endpoint, a
non-OK response any JSON value. -/
inductive Response (α : Type) where
  | ok (json : Option α)
  | failed (json : Option Json)
  deriving DecidableEq, Repr

/-- Outcome of `await fetch(...)`: the promise rejects (no response), or a response
arrives. -/
inductive Fetched (α : Type) where
  | rejected
  | resolved (response : Response α)
  deriving DecidableEq, Repr

/-! ## State and effects -/

/-- One side effect, in the order the program performs them. -/
inductive Effect where
  | fetch (request : Request)
  | setAuth (value : JsObject)
  | setFavorites (value : List JsObject)
  | setLoginErr (value : Option String)
  | setRegErr (value : Option String)
  | setHasAccount (value : Bool)
  | setItem (key value : String)
  | removeItem (key : String)
  | consoleLog (value : Json)
  deriving DecidableEq, Repr

/-- The `useState` cells of `App`, `window.localStorage`, and the effects performed so far.
`loginErr` and `regErr` hold `null` (`none`) or a message. -/
structure World where
  auth : JsObject := []
  products : List JsObject := []
  favorites : List JsObject := []
  loginErr : Option String := none
  regErr : Option String := none
  hasAccount : Bool := false
  storage : List (String × String) := []
  trace : List Effect := []
  deriving DecidableEq, Repr

/-- How a call ended: it returned (its promise fulfils) or threw (its promise rejects). -/
inductive Completion where
  | returned
  | threw (error : JsError)
  deriving DecidableEq, Repr

/-- The world a call leaves behind and how the call ended. -/
structure Run where
  world : World
  completion : Completion
  deriving DecidableEq, Repr

/-- The call `fetch(...)`: the request is issued. -/
def World.fetch (w : World) (request : Request) : World :=
  { w with trace := w.trace ++ [.fetch request] }

def World.setAuth (w : World) (value : JsObject) : World :=
  { w with auth := value, trace := w.trace ++ [.setAuth value] }

def World.setFavorites (w : World) (value : List JsObject) : World :=
  { w with favorites := value, trace := w.trace ++ [.setFavorites value] }

def World.setLoginErr (w : World) (value : Option String) : World :=
  { w with loginErr := value, trace := w.trace ++ [.setLoginErr value] }

def World.setRegErr (w : World) (value : Option String) : World :=
  { w with regErr := value, trace := w.trace ++ [.setRegErr value] }

def World.setHasAccount (w : World) (value : Bool) : World :=
  { w with hasAccount := value, trace := w.trace ++ [.setHasAccount value] }

def World.consoleLog (w : World) (value : Json) : World :=
  { w with trace := w.trace ++ [.consoleLog value] }

/-- The call `window.localStorage.getItem(key)`: the stored string, or `null`. -/
def World.getItem (w : World) (key : String) : JsVal :=
  match w.storage.lookup key with
  | some v => .str v
  | none => .null

/-- The call `window.localStorage.setItem(key, value)`; the value is stored as a string. -/
def World.setItem (w : World) (key : String) (value : JsVal) : World :=
  { w with
    storage := (key, value.toJsString) :: w.storage.filter (fun entry => entry.1 != key),
    trace := w.trace ++ [.setItem key value.toJsString] }

/-- The call `window.localStorage.removeItem(key)`. -/
def World.removeItem (w : World) (key : String) : World :=
  { w with
    storage := w.storage.filter (fun entry => entry.1 != key),
    trace := w.trace ++ [.removeItem key] }

/-- The network requests issued so far, oldest first. -/
def World.requests (w : World) : List Request :=
  w.trace.filterMap (fun effect =>
    match effect with
    | .fetch request => some request
    | _ => none)

/-! ## `App`

Every function that parses the body does so (`const json = await response.json()`) before it
tests `response.ok`, so a body that is not JSON makes it throw on either kind of response.
The payload of an OK response has the shape the program stores: an identity record for
`/auth/me`, a favorite record for the POST, a list of records for the favorites list.  The
login payload is read field by field and is therefore any JSON value. -/

/-- The request of `attemptLoginWithToken` (lines 79-83). -/
def identityRequest (token : JsVal) : Request :=
  { url := [.str "/api/auth/me"], headers := [("authorization", token)] }

/-- The function `attemptLoginWithToken` (lines 76-92). -/
def attemptLoginWithToken (w : World) (me : Fetched JsObject) : Run :=
  let token := w.getItem "token"
  if truthy token then
    let w1 := w.fetch (identityRequest token)
    match me with
    | .rejected => ⟨w1, .threw .fetchRejected⟩
    | .resolved (.ok none) => ⟨w1, .threw .syntaxError⟩
    | .resolved (.failed none) => ⟨w1, .threw .syntaxError⟩
    | .resolved (.ok (some json)) => ⟨w1.setAuth json, .returned⟩
    | .resolved (.failed (some _)) =>
      ⟨(w1.setLoginErr (some "Unable to login, please try again.")).removeItem "token",
        .returned⟩
  else
    ⟨w, .returned⟩

/-- The function `fetchFavorites`, declared inside the effect on `auth` (lines 105-116).
On a non-OK response `json` is parsed but not read. -/
def fetchFavorites (w : World) (res : Fetched (List JsObject)) : Run :=
  let token := w.getItem "token"
  let w1 := w.fetch
    { url := [.str "/api/users/", w.auth.get "id", .str "/favorites"],
      headers := [("authorization", token)] }
  match res with
  | .rejected => ⟨w1, .threw .fetchRejected⟩
  | .resolved (.ok none) => ⟨w1, .threw .syntaxError⟩
  | .resolved (.failed none) => ⟨w1, .threw .syntaxError⟩
  | .resolved (.ok (some json)) => ⟨w1.setFavorites json, .returned⟩
  | .resolved (.failed (some _)) => ⟨w1, .returned⟩

/-- The effect `useEffect(() => ..., [auth])` (lines 104-122), which React runs after every
render in which `auth` has changed. `fetchFavorites()` is not awaited. -/
def favoritesEffect (w : World) (res : Fetched (List JsObject)) : World :=
  if truthy (w.auth.get "id") then
    (fetchFavorites w res).world
  else
    w.setFavorites []

/-- The request of `login` (lines 125-131). -/
def loginRequest (credentials : JsObject) : Request :=
  { url := [.str "/api/auth/login"],
    method := "POST",
    body := some credentials,
    headers := [("Content-Type", .str "application/json")] }

/-- The part of `login` up to its first `await`: the part that runs inside the caller. -/
def loginDispatch (w : World) (credentials : JsObject) : World :=
  w.fetch (loginRequest credentials)

/-- The message `login` chooses from the value of `json.error` (lines 139-145). -/
def loginFailureMessage (error : JsVal) : String :=
  if error = .str "not authorized" then
    "Password is incorrect (hint: must be at least 4 characters)."
  else
    "User does not exist."

/-- The part of `login` after its awaits (lines 133-146), run in the world of that later
moment. `attemptLoginWithToken()` is called without `await`, so how it ends does not reach
the caller of `login`. -/
def loginResume (w : World) (res : Fetched Json) (me : Fetched JsObject) : Run :=
  match res with
  | .rejected => ⟨w, .threw .fetchRejected⟩
  | .resolved (.ok none) => ⟨w, .threw .syntaxError⟩
  | .resolved (.failed none) => ⟨w, .threw .syntaxError⟩
  | .resolved (.ok (some json)) =>
    match json.prop "token" with
    | .error e => ⟨w, .threw e⟩
    | .ok token => ⟨(attemptLoginWithToken (w.setItem "token" token) me).world, .returned⟩
  | .resolved (.failed (some json)) =>
    let w1 := w.consoleLog json
    match json.prop "error" with
    | .error e => ⟨w1, .threw e⟩
    | .ok error => ⟨w1.setLoginErr (some (loginFailureMessage error)), .returned⟩

/-- The function `login` (lines 124-147), run without interruption. -/
def login (w : World) (credentials : JsObject) (res : Fetched Json)
    (me : Fetched JsObject) : Run :=
  loginResume (loginDispatch w credentials) res me

/-- The request of `register` (lines 150-156). -/
def registerRequest (credentials : JsObject) : Request :=
  { url := [.str "/api/auth/register"],
    method := "POST",
    body := some credentials,
    headers := [("Content-Type", .str "application/json")] }

/-- The part of `register` up to its first `await`. -/
def registerDispatch (w : World) (credentials : JsObject) : World :=
  w.fetch (registerRequest credentials)

/-- The part of `register` after its awaits (lines 157-167). -/
def registerResume (w : World) (credentials : JsObject) (res : Fetched Json)
    (loginRes : Fetched Json) (me : Fetched JsObject) : Run :=
  match res with
  | .rejected => ⟨w, .threw .fetchRejected⟩
  | .resolved (.ok none) => ⟨w, .threw .syntaxError⟩
  | .resolved (.failed none) => ⟨w, .threw .syntaxError⟩
  | .resolved (.ok (some _)) =>
    let attempt := login w credentials loginRes me
    match attempt.completion with
    | .returned => attempt
    | .threw _ =>
      ⟨attempt.world.setRegErr (some "Account registered but unable to login at this time."),
        .returned⟩
  | .resolved (.failed (some json)) =>
    ⟨(w.setRegErr (some "Account may already exist, please try again.")).consoleLog json,
      .returned⟩

/-- The function `register` (lines 149-168), run without interruption. -/
def register (w : World) (credentials : JsObject) (res : Fetched Json)
    (loginRes : Fetched Json) (me : Fetched JsObject) : Run :=
  registerResume (registerDispatch w credentials) credentials res loginRes me

/-- The function `addFavorite` (lines 170-187). `favorites` and `auth` are those of the
render the handler belongs to, which is the world it is started in. -/
def addFavorite (w : World) (product_id : JsVal) (res : Fetched JsObject) : Run :=
  let token := w.getItem "token"
  let w1 := w.fetch
    { url := [.str "/api/users/", w.auth.get "id", .str "/favorites"],
      method := "POST",
      body := some [("product_id", product_id)],
      headers := [("Content-Type", .str "application/json"), ("authorization", token)] }
  match res with
  | .rejected => ⟨w1, .threw .fetchRejected⟩
  | .resolved (.ok none) => ⟨w1, .threw .syntaxError⟩
  | .resolved (.failed none) => ⟨w1, .threw .syntaxError⟩
  | .resolved (.ok (some json)) => ⟨w1.setFavorites (w.favorites ++ [json]), .returned⟩
  | .resolved (.failed (some json)) => ⟨w1.consoleLog json, .returned⟩

/-- The function `removeFavorite` (lines 189-203), started in the world of the render its
handler belongs to. The body of the response is never parsed, and the `else` branch reads a
variable `json` that no enclosing scope declares. -/
def removeFavorite (w : World) (id : JsVal) (res : Fetched Unit) : Run :=
  let token := w.getItem "token"
  let w1 := w.fetch
    { url := [.str "/api/users/", w.auth.get "id", .str "/favorites/", id],
      method := "DELETE",
      headers := [("authorization", token)] }
  match res with
  | .rejected => ⟨w1, .threw .fetchRejected⟩
  | .resolved (.ok _) =>
    ⟨w1.setFavorites (w.favorites.filter (fun favorite => favorite.get "id" != id)),
      .returned⟩
  | .resolved (.failed _) => ⟨w1, .threw (.referenceError "json")⟩

/-- The function `logout` (lines 205-208). -/
def logout (w : World) : World :=
  (w.removeItem "token").setAuth []

/-- The function `handleClick` (lines 210-212). -/
def handleClick (w : World) : World :=
  w.setHasAccount (!w.hasAccount)

end App

/-! ## The forms -/

namespace Login

open App

/-- The handler `submit` of `Login` (lines 7-11): `login` runs up to its first `await`, then the
error is cleared; the rest of `login` is `App.loginResume`, run when the response is
there. -/
def submit (w : World) (username password : String) : World :=
  (loginDispatch w [("username", .str username), ("password", .str password)]).setLoginErr
    none

/-- The `disabled` attribute of the Login button (line 25). -/
def disabled (username password : String) : Bool :=
  !truthy (.str username) || !truthy (.str password)

/-- Submitting the form through its button: a disabled submit button does not submit its
form, so `submit` runs only when the button is enabled. -/
def form (w : World) (username password : String) : World :=
  if disabled username password then w else submit w username password

end Login

namespace Register

open App

/-- The handler `submit` of `Register` (lines 33-41). -/
def submit (w : World) (username password : String) : World :=
  if jsLength password < 4 then
    w.setRegErr (some "Please enter a password with at least 4 characters.")
  else
    (registerDispatch w [("username", .str username), ("password", .str password)]).setRegErr
      none

/-- The `disabled` attribute of the Register button (line 59). -/
def disabled (username password : String) : Bool :=
  !truthy (.str username) || !truthy (.str password)

/-- Submitting the form through its button: a disabled submit button does not submit its
form, so `submit` runs only when the button is enabled. -/
def form (w : World) (username password : String) : World :=
  if disabled username password then w else submit w username password

end Register

/-! ## Properties -/

section Properties

open App

/-- Filtering out the entries of one key leaves nothing to look up under that key. -/
theorem lookup_filter_ne_self (key : String) (storage : List (String × String)) :
    (storage.filter (fun entry => entry.1 != key)).lookup key = none := by
  induction storage with
  | nil => rfl
  | cons entry rest ih =>
    obtain ⟨k, v⟩ := entry
    by_cases h : k = key
    · have drop : ((k, v).1 != key) = false := by simp [h]
      rw [List.filter_cons, drop]
      exact ih
    · have keep : ((k, v).1 != key) = true := by simp [h]
      have differ : (key == k) = false := by
        simp only [beq_eq_false_iff_ne, ne_eq]
        exact fun e => h e.symm
      rw [List.filter_cons, keep]
      simp only [if_true, List.lookup_cons, differ]
      exact ih

/-- Recording a request adds exactly that request to the issued requests. -/
theorem requests_fetch (w : World) (request : Request) :
    (w.fetch request).requests = w.requests ++ [request] := by
  simp [World.fetch, World.requests, List.filterMap_append]

/-- Writing `auth` issues no request. -/
theorem requests_setAuth (w : World) (value : JsObject) :
    (w.setAuth value).requests = w.requests := by
  simp [World.setAuth, World.requests, List.filterMap_append]

/-- Writing `loginErr` issues no request. -/
theorem requests_setLoginErr (w : World) (value : Option String) :
    (w.setLoginErr value).requests = w.requests := by
  simp [World.setLoginErr, World.requests, List.filterMap_append]

/-- Writing `regErr` issues no request. -/
theorem requests_setRegErr (w : World) (value : Option String) :
    (w.setRegErr value).requests = w.requests := by
  simp [World.setRegErr, World.requests, List.filterMap_append]

/-- Storing an item issues no request. -/
theorem requests_setItem (w : World) (key : String) (value : JsVal) :
    (w.setItem key value).requests = w.requests := by
  simp [World.setItem, World.requests, List.filterMap_append]

/-- Removing an item issues no request. -/
theorem requests_removeItem (w : World) (key : String) :
    (w.removeItem key).requests = w.requests := by
  simp [World.removeItem, World.requests, List.filterMap_append]

/-- Logging issues no request. -/
theorem requests_consoleLog (w : World) (value : Json) :
    (w.consoleLog value).requests = w.requests := by
  simp [World.consoleLog, World.requests, List.filterMap_append]

/-- A property read throws only on `null`. -/
theorem prop_of_ne_null (json : Json) (k : String) (parsed : json ≠ .null) :
    json.prop k = .ok (json.field k) := by
  cases json <;> first | exact absurd rfl parsed | rfl

/-- A payload with a defined field is not `null`. -/
theorem ne_null_of_field (json : Json) (k : String) (v : JsVal) (defined : v ≠ .undefined)
    (holds : json.field k = v) : json ≠ .null := by
  intro isNull
  subst isNull
  exact defined holds.symm

/-- C1 (as amended): starting from any favorites list and any record `f` returned by a
successful POST whose `id` no record of the list already carries, `addFavorite` followed by
`removeFavorite` on `f.id` with a successful DELETE leaves `favorites` exactly as it was:
same records, same order. -/
theorem addFavorite_then_removeFavorite_fresh_id (w : World) (product_id : JsVal)
    (f : JsObject) (deleted : Option Unit)
    (fresh : ∀ favorite ∈ w.favorites, favorite.get "id" ≠ f.get "id") :
    (removeFavorite (addFavorite w product_id (.resolved (.ok (some f)))).world (f.get "id")
      (.resolved (.ok deleted))).world.favorites = w.favorites := by
  simp only [addFavorite, removeFavorite, World.fetch, World.setFavorites, List.filter_append]
  have keep : w.favorites.filter (fun favorite => favorite.get "id" != f.get "id")
      = w.favorites := by
    rw [List.filter_eq_self]
    intro favorite hmem
    simpa using fresh favorite hmem
  simp [keep]

/-- Witness for C1 (as amended): list with record 1, the POST returns record 2. -/
theorem addFavorite_then_removeFavorite_fresh_id_witness :
    (removeFavorite
      (addFavorite
        { favorites := [[("id", .num ⟨1, by decide⟩), ("product_id", .num ⟨10, by decide⟩)]] }
        (.num ⟨20, by decide⟩)
        (.resolved (.ok (some
          [("id", .num ⟨2, by decide⟩), ("product_id", .num ⟨20, by decide⟩)])))).world
      (JsObject.get [("id", .num ⟨2, by decide⟩), ("product_id", .num ⟨20, by decide⟩)] "id")
      (.resolved (.ok none))).world.favorites
      = [[("id", .num ⟨1, by decide⟩), ("product_id", .num ⟨10, by decide⟩)]] :=
  addFavorite_then_removeFavorite_fresh_id
    { favorites := [[("id", .num ⟨1, by decide⟩), ("product_id", .num ⟨10, by decide⟩)]] }
    (.num ⟨20, by decide⟩)
    [("id", .num ⟨2, by decide⟩), ("product_id", .num ⟨20, by decide⟩)] none (by decide)

/-- C1 fails as stated: when the record returned by the POST carries the `id` of a record
already in the list, removing by that `id` also removes the older record, so the list
`[{id: 1, product_id: 10}]` ends up empty. -/
theorem addFavorite_then_removeFavorite_duplicate_id :
    (removeFavorite
      (addFavorite
        { favorites := [[("id", .num ⟨1, by decide⟩), ("product_id", .num ⟨10, by decide⟩)]] }
        (.num ⟨20, by decide⟩)
        (.resolved (.ok (some
          [("id", .num ⟨1, by decide⟩), ("product_id", .num ⟨20, by decide⟩)])))).world
      (JsObject.get [("id", .num ⟨1, by decide⟩), ("product_id", .num ⟨20, by decide⟩)] "id")
      (.resolved (.ok none))).world.favorites = []
    ∧ ([] : List JsObject)
      ≠ [[("id", .num ⟨1, by decide⟩), ("product_id", .num ⟨10, by decide⟩)]] := by
  constructor
  · rfl
  · simp

/-- C2: for every username and every password of fewer than 4 code units, `submit` of the
Register form issues no request (`register` is not started) and sets `regErr` to the fixed
message; nothing else happens. -/
theorem register_submit_short_password (w : World) (username password : String)
    (short : jsLength password < 4) :
    Register.submit w username password
        = w.setRegErr (some "Please enter a password with at least 4 characters.")
    ∧ (Register.submit w username password).regErr
        = some "Please enter a password with at least 4 characters."
    ∧ (Register.submit w username password).requests = w.requests
    ∧ (Register.submit w username password).trace
        = w.trace ++ [.setRegErr (some "Please enter a password with at least 4 characters.")] := by
  simp [Register.submit, short, World.setRegErr, World.requests, List.filterMap_append]

/-- Witness for C2: username `ann`, password `abc`. -/
theorem register_submit_short_password_witness :
    jsLength "abc" < 4
    ∧ (Register.submit {} "ann" "abc").regErr
        = some "Please enter a password with at least 4 characters."
    ∧ (Register.submit {} "ann" "abc").requests = [] :=
  ⟨by decide,
    (register_submit_short_password {} "ann" "abc" (by decide)).2.1,
    (register_submit_short_password {} "ann" "abc" (by decide)).2.2.1⟩

/-- C3 fails as stated: `login` parses the body and reads `json.error` before it writes
anything. A non-OK response whose body is the JSON value `null` is logged and then the read
throws a TypeError; a non-OK response whose body is not JSON throws while parsing. In both
cases `loginErr` is not set. -/
theorem login_failed_response_null_or_unparsed :
    (login {} [("username", .str "ann"), ("password", .str "abcd")]
        (.resolved (.failed (some .null))) .rejected
      = ⟨{ trace := [.fetch (loginRequest [("username", .str "ann"),
            ("password", .str "abcd")]), .consoleLog .null] }, .threw .typeError⟩
    ∧ (login {} [("username", .str "ann"), ("password", .str "abcd")]
        (.resolved (.failed (some .null))) .rejected).world.loginErr = none)
    ∧ (login {} [("username", .str "ann"), ("password", .str "abcd")]
        (.resolved (.failed none)) .rejected
      = ⟨{ trace := [.fetch (loginRequest [("username", .str "ann"),
            ("password", .str "abcd")])] }, .threw .syntaxError⟩
    ∧ (login {} [("username", .str "ann"), ("password", .str "abcd")]
        (.resolved (.failed none)) .rejected).world.loginErr = none) := by
  refine ⟨⟨?_, ?_⟩, ?_, ?_⟩ <;> rfl

/-- C3 (as amended): for every non-OK login response whose body parses to a JSON value other
than `null`, `loginErr` becomes the password hint when the payload's `error` field is the
string `not authorized` and the generic message for every other payload; the call returns,
and the stored token, `auth`, `favorites` and every other state cell are as before (the only
effects are the request, the log line and the write of `loginErr`). -/
theorem login_failed_response (w : World) (credentials : JsObject) (json : Json)
    (me : Fetched JsObject) (parsed : json ≠ .null) :
    (login w credentials (.resolved (.failed (some json))) me).world.loginErr
        = some (if json.field "error" = .str "not authorized"
            then "Password is incorrect (hint: must be at least 4 characters)."
            else "User does not exist.")
    ∧ (login w credentials (.resolved (.failed (some json))) me).completion = .returned
    ∧ (login w credentials (.resolved (.failed (some json))) me).world.storage = w.storage
    ∧ (login w credentials (.resolved (.failed (some json))) me).world.auth = w.auth
    ∧ (login w credentials (.resolved (.failed (some json))) me).world.favorites = w.favorites
    ∧ (login w credentials (.resolved (.failed (some json))) me).world
        = { w with
            loginErr :=
              (login w credentials (.resolved (.failed (some json))) me).world.loginErr,
            trace := w.trace ++ [.fetch (loginRequest credentials), .consoleLog json,
              .setLoginErr
                (login w credentials (.resolved (.failed (some json))) me).world.loginErr] } := by
  simp [login, loginResume, loginDispatch, loginFailureMessage, prop_of_ne_null json _ parsed,
    World.fetch, World.consoleLog, World.setLoginErr]

/-- Witness for C3 (as amended): the two payloads of the claim, and a payload that is not an
object. -/
theorem login_failed_response_witness :
    (login {} [("username", .str "ann"), ("password", .str "abcd")]
        (.resolved (.failed (some (.obj [("error", .str "not authorized")]))))
        .rejected).world.loginErr
      = some "Password is incorrect (hint: must be at least 4 characters)."
    ∧ (login {} [("username", .str "ann"), ("password", .str "abcd")]
        (.resolved (.failed (some (.obj [("error", .str "no such user")]))))
        .rejected).world.loginErr
      = some "User does not exist."
    ∧ (login {} [("username", .str "ann"), ("password", .str "abcd")]
        (.resolved (.failed (some (.str "Unauthorized")))) .rejected).world.loginErr
      = some "User does not exist." :=
  ⟨(login_failed_response {} [("username", .str "ann"), ("password", .str "abcd")]
      (.obj [("error", .str "not authorized")]) .rejected (by decide)).1,
    (login_failed_response {} [("username", .str "ann"), ("password", .str "abcd")]
      (.obj [("error", .str "no such user")]) .rejected (by decide)).1,
    (login_failed_response {} [("username", .str "ann"), ("password", .str "abcd")]
      (.str "Unauthorized") .rejected (by decide)).1⟩

/-- C4 fails as stated, twice. A successful login response whose token is the empty string
is stored, but `attemptLoginWithToken` finds the stored value falsy and never calls the
identity endpoint: the only request is the login request and `auth` stays `{}`. And a
successful identity response whose record has `id: 0` becomes `auth` with a falsy `id`. -/
theorem login_empty_token_or_falsy_id :
    ((login {} [("username", .str "ann"), ("password", .str "abcd")]
        (.resolved (.ok (some (.obj [("token", .str "")]))))
        (.resolved (.ok (some [("id", .num ⟨7, by decide⟩), ("username", .str "ann")])))
      ).world.requests
      = [loginRequest [("username", .str "ann"), ("password", .str "abcd")]]
    ∧ (login {} [("username", .str "ann"), ("password", .str "abcd")]
        (.resolved (.ok (some (.obj [("token", .str "")]))))
        (.resolved (.ok (some [("id", .num ⟨7, by decide⟩), ("username", .str "ann")])))
      ).world.auth = [])
    ∧ truthy ((login {} [("username", .str "ann"), ("password", .str "abcd")]
        (.resolved (.ok (some (.obj [("token", .str "t1")]))))
        (.resolved (.ok (some [("id", .num ⟨0, by decide⟩), ("username", .str "ann")])))
      ).world.auth.get "id")
      = false := by
  refine ⟨⟨?_, ?_⟩, ?_⟩ <;> decide

/-- C4 (as amended): for every successful login response carrying a non-empty string token
`t`, `login` stores `t` under the key `token` and then calls the identity endpoint with the
`authorization` header equal to `t`, whatever that call answers; and when that call succeeds
with an identity record, `auth` becomes exactly that record, for every record, so that
`auth.id` is truthy exactly when the returned record's `id` is. -/
theorem login_success_then_identity (w : World) (credentials : JsObject) (json : Json)
    (t : String) (carries : json.field "token" = .str t) (nonempty : t ≠ "") :
    ((loginDispatch w credentials).setItem "token" (.str t)).getItem "token" = .str t
    ∧ (∀ me : Fetched JsObject, ∃ rest,
        (login w credentials (.resolved (.ok (some json))) me).world.trace
          = w.trace ++ [.fetch (loginRequest credentials), .setItem "token" t,
              .fetch (identityRequest (.str t))] ++ rest)
    ∧ (∀ me : Fetched JsObject,
        (login w credentials (.resolved (.ok (some json))) me).world.requests
          = w.requests ++ [loginRequest credentials, identityRequest (.str t)])
    ∧ ∀ identity : JsObject,
        (login w credentials (.resolved (.ok (some json)))
            (.resolved (.ok (some identity)))).world.trace
          = w.trace ++ [.fetch (loginRequest credentials), .setItem "token" t,
              .fetch (identityRequest (.str t)), .setAuth identity]
        ∧ (login w credentials (.resolved (.ok (some json)))
            (.resolved (.ok (some identity)))).world.auth = identity
        ∧ (login w credentials (.resolved (.ok (some json)))
            (.resolved (.ok (some identity)))).world.getItem "token" = .str t
        ∧ truthy ((login w credentials (.resolved (.ok (some json)))
            (.resolved (.ok (some identity)))).world.auth.get "id")
          = truthy (identity.get "id") := by
  have parsed : json ≠ .null :=
    ne_null_of_field json "token" (.str t) (by simp) carries
  have read : json.prop "token" = .ok (.str t) := by
    rw [prop_of_ne_null json "token" parsed, carries]
  have stored : ((loginDispatch w credentials).setItem "token" (.str t)).getItem "token"
      = .str t := by
    simp [World.setItem, World.getItem, List.lookup_cons, JsVal.toJsString]
  have guard : truthy (.str t) = true := by simp [truthy, nonempty]
  refine ⟨stored, ?_, ?_, ?_⟩
  · intro me
    rcases me with _ | ⟨(_ | identity) | (_ | payload)⟩
    · exact ⟨[], by
        simp [login, loginResume, read, attemptLoginWithToken, stored, guard]
        simp [loginDispatch, World.fetch, World.setItem, JsVal.toJsString]⟩
    · exact ⟨[], by
        simp [login, loginResume, read, attemptLoginWithToken, stored, guard]
        simp [loginDispatch, World.fetch, World.setItem, JsVal.toJsString]⟩
    · exact ⟨[.setAuth identity], by
        simp [login, loginResume, read, attemptLoginWithToken, stored, guard]
        simp [loginDispatch, World.fetch, World.setItem, World.setAuth, JsVal.toJsString]⟩
    · exact ⟨[], by
        simp [login, loginResume, read, attemptLoginWithToken, stored, guard]
        simp [loginDispatch, World.fetch, World.setItem, JsVal.toJsString]⟩
    · exact ⟨[.setLoginErr (some "Unable to login, please try again."), .removeItem "token"],
        by
        simp [login, loginResume, read, attemptLoginWithToken, stored, guard]
        simp [loginDispatch, World.fetch, World.setItem, World.setLoginErr, World.removeItem,
          JsVal.toJsString]⟩
  · intro me
    rcases me with _ | ⟨(_ | identity) | (_ | payload)⟩ <;>
      simp [login, loginResume, read, attemptLoginWithToken, stored, guard] <;>
      simp [loginDispatch, requests_fetch, requests_setItem, requests_setAuth,
        requests_setLoginErr, requests_removeItem]
  · intro identity
    simp [login, loginResume, read, attemptLoginWithToken, stored, guard]
    simp [loginDispatch, World.setItem, World.getItem, World.fetch, World.setAuth,
      JsVal.toJsString, List.lookup_cons]

/-- Witness for C4 (as amended): token `t1`, identity `{id: 7, username: "ann"}`. -/
theorem login_success_then_identity_witness :
    (login {} [("username", .str "ann"), ("password", .str "abcd")]
        (.resolved (.ok (some (.obj [("token", .str "t1")]))))
        (.resolved (.ok (some [("id", .num ⟨7, by decide⟩), ("username", .str "ann")])))
      ).world.requests
      = [loginRequest [("username", .str "ann"), ("password", .str "abcd")],
          identityRequest (.str "t1")]
    ∧ (login {} [("username", .str "ann"), ("password", .str "abcd")]
        (.resolved (.ok (some (.obj [("token", .str "t1")]))))
        (.resolved (.ok (some [("id", .num ⟨7, by decide⟩), ("username", .str "ann")])))
      ).world.auth
      = [("id", .num ⟨7, by decide⟩), ("username", .str "ann")]
    ∧ truthy ((login {} [("username", .str "ann"), ("password", .str "abcd")]
        (.resolved (.ok (some (.obj [("token", .str "t1")]))))
        (.resolved (.ok (some [("id", .num ⟨7, by decide⟩), ("username", .str "ann")])))
      ).world.auth.get "id") = true :=
  ⟨(login_success_then_identity {} [("username", .str "ann"), ("password", .str "abcd")]
      (.obj [("token", .str "t1")]) "t1" rfl (by decide)).2.2.1
      (.resolved (.ok (some [("id", .num ⟨7, by decide⟩), ("username", .str "ann")]))),
    ((login_success_then_identity {} [("username", .str "ann"), ("password", .str "abcd")]
      (.obj [("token", .str "t1")]) "t1" rfl (by decide)).2.2.2
      [("id", .num ⟨7, by decide⟩), ("username", .str "ann")]).2.1,
    ((login_success_then_identity {} [("username", .str "ann"), ("password", .str "abcd")]
      (.obj [("token", .str "t1")]) "t1" rfl (by decide)).2.2.2
      [("id", .num ⟨7, by decide⟩), ("username", .str "ann")]).2.2.2⟩

/-- C5: whenever `auth` has no truthy `id`, the effect on `auth` sets `favorites` to the
empty list and issues no request, whatever `favorites` held before and whatever the network
would have answered; in particular this is what it does in the world `logout` leaves. -/
theorem favoritesEffect_absent_user (w : World) (res : Fetched (List JsObject))
    (absent : truthy (w.auth.get "id") = false) :
    favoritesEffect w res = w.setFavorites []
    ∧ (favoritesEffect w res).favorites = []
    ∧ (favoritesEffect w res).requests = w.requests
    ∧ ∀ before : World,
        (favoritesEffect (logout before) res).favorites = []
        ∧ (favoritesEffect (logout before) res).requests = before.requests
        ∧ (favoritesEffect (logout before) res).trace
            = before.trace ++ [.removeItem "token", .setAuth [], .setFavorites []] := by
  refine ⟨?_, ?_, ?_, ?_⟩
  · simp [favoritesEffect, absent]
  · simp [favoritesEffect, absent, World.setFavorites]
  · simp [favoritesEffect, absent, World.setFavorites, World.requests, List.filterMap_append]
  · intro before
    have loggedOut : truthy ((logout before).auth.get "id") = false := by
      simp [logout, World.setAuth, JsObject.get, truthy]
    simp [favoritesEffect, loggedOut]
    simp [logout, World.setFavorites, World.setAuth, World.removeItem, World.requests,
      List.filterMap_append]

/-- Witness for C5: a signed-out world that still holds one favorite. -/
theorem favoritesEffect_absent_user_witness :
    (favoritesEffect
        { auth := [],
          favorites := [[("id", .num ⟨1, by decide⟩), ("product_id", .num ⟨10, by decide⟩)]] }
        (.resolved (.ok (some
          [[("id", .num ⟨2, by decide⟩), ("product_id", .num ⟨20, by decide⟩)]])))).favorites
      = []
    ∧ (favoritesEffect
        { auth := [],
          favorites := [[("id", .num ⟨1, by decide⟩), ("product_id", .num ⟨10, by decide⟩)]] }
        (.resolved (.ok (some
          [[("id", .num ⟨2, by decide⟩), ("product_id", .num ⟨20, by decide⟩)]])))).requests
      = [] :=
  ⟨(favoritesEffect_absent_user
      { auth := [],
        favorites := [[("id", .num ⟨1, by decide⟩), ("product_id", .num ⟨10, by decide⟩)]] }
      (.resolved (.ok (some
        [[("id", .num ⟨2, by decide⟩), ("product_id", .num ⟨20, by decide⟩)]])))
      (by decide)).2.1,
    (favoritesEffect_absent_user
      { auth := [],
        favorites := [[("id", .num ⟨1, by decide⟩), ("product_id", .num ⟨10, by decide⟩)]] }
      (.resolved (.ok (some
        [[("id", .num ⟨2, by decide⟩), ("product_id", .num ⟨20, by decide⟩)]])))
      (by decide)).2.2.1⟩

/-- C6 fails as stated: `attemptLoginWithToken` parses the body before it tests
`response.ok`, so a non-OK identity response whose body is not JSON makes it throw right
after the request: `loginErr` is not set and the stored token `t1` is kept. -/
theorem attemptLoginWithToken_failed_unparsed :
    attemptLoginWithToken { storage := [("token", "t1")] } (.resolved (.failed none))
      = ⟨{ storage := [("token", "t1")], trace := [.fetch (identityRequest (.str "t1"))] },
          .threw .syntaxError⟩
    ∧ (attemptLoginWithToken { storage := [("token", "t1")] }
        (.resolved (.failed none))).world.loginErr = none
    ∧ (attemptLoginWithToken { storage := [("token", "t1")] }
        (.resolved (.failed none))).world.getItem "token" = .str "t1" := by
  refine ⟨?_, ?_, ?_⟩ <;> rfl

/-- C6 (as amended): for every stored token for which `attemptLoginWithToken` makes the
identity call (the stored string is non-empty), a non-OK response whose body parses as JSON,
whatever the value, sets `loginErr` to the re-login message, deletes the stored token and
leaves `auth` unchanged; the call was made with that token as `authorization` header, and the
function returns. -/
theorem attemptLoginWithToken_failed_response (w : World) (t : String) (json : Json)
    (stored : w.getItem "token" = .str t) (nonempty : t ≠ "") :
    (attemptLoginWithToken w (.resolved (.failed (some json)))).world.loginErr
        = some "Unable to login, please try again."
    ∧ (attemptLoginWithToken w (.resolved (.failed (some json)))).world.getItem "token" = .null
    ∧ (attemptLoginWithToken w (.resolved (.failed (some json)))).world.auth = w.auth
    ∧ (attemptLoginWithToken w (.resolved (.failed (some json)))).world.requests
        = w.requests ++ [identityRequest (.str t)]
    ∧ (attemptLoginWithToken w (.resolved (.failed (some json)))).world.trace
        = w.trace ++ [.fetch (identityRequest (.str t)),
            .setLoginErr (some "Unable to login, please try again."), .removeItem "token"]
    ∧ (attemptLoginWithToken w (.resolved (.failed (some json)))).completion = .returned := by
  have guard : truthy (.str t) = true := by simp [truthy, nonempty]
  simp [attemptLoginWithToken, stored, guard]
  simp [World.removeItem, World.setLoginErr, World.fetch, World.getItem, World.requests,
    List.filterMap_append, lookup_filter_ne_self]

/-- Witness for C6 (as amended): stored token `t1`, payload `{error: "bad token"}`. -/
theorem attemptLoginWithToken_failed_response_witness :
    (attemptLoginWithToken { storage := [("token", "t1")], auth := [] }
        (.resolved (.failed (some (.obj [("error", .str "bad token")]))))).world.loginErr
      = some "Unable to login, please try again."
    ∧ (attemptLoginWithToken { storage := [("token", "t1")], auth := [] }
        (.resolved (.failed (some (.obj [("error", .str "bad token")]))))).world.getItem
          "token" = .null :=
  ⟨(attemptLoginWithToken_failed_response { storage := [("token", "t1")], auth := [] } "t1"
      (.obj [("error", .str "bad token")]) (by decide) (by decide)).1,
    (attemptLoginWithToken_failed_response { storage := [("token", "t1")], auth := [] } "t1"
      (.obj [("error", .str "bad token")]) (by decide) (by decide)).2.1⟩

/-- C7 (what the code does): for every favorite id, `removeFavorite` on a non-OK DELETE
response, whatever its body, leaves `favorites` unchanged but does not complete normally:
reading the undeclared `json` raises a ReferenceError, and nothing is logged (the only
effect is the request). -/
theorem removeFavorite_failed_response_throws (w : World) (id : JsVal) (body : Option Json) :
    (removeFavorite w id (.resolved (.failed body))).completion
        = .threw (.referenceError "json")
    ∧ (removeFavorite w id (.resolved (.failed body))).world.favorites = w.favorites
    ∧ (removeFavorite w id (.resolved (.failed body))).world.trace
        = w.trace ++ [.fetch
            { url := [.str "/api/users/", w.auth.get "id", .str "/favorites/", id],
              method := "DELETE",
              headers := [("authorization", w.getItem "token")] }] := by
  simp [removeFavorite, World.fetch]

/-- Requests are only ever added by `attemptLoginWithToken`. -/
theorem attemptLoginWithToken_requests (w : World) (me : Fetched JsObject) :
    ∃ rest, (attemptLoginWithToken w me).world.requests = w.requests ++ rest := by
  by_cases guard : truthy (w.getItem "token") = true
  · refine ⟨[identityRequest (w.getItem "token")], ?_⟩
    rcases me with _ | ⟨(_ | identity) | (_ | payload)⟩ <;>
      simp [attemptLoginWithToken, guard, requests_fetch, requests_setAuth,
        requests_setLoginErr, requests_removeItem]
  · exact ⟨[], by simp [attemptLoginWithToken, guard]⟩

/-- The first request of every `login` run is the login request for its credentials. -/
theorem login_requests (w : World) (credentials : JsObject) (res : Fetched Json)
    (me : Fetched JsObject) :
    ∃ rest, (login w credentials res me).world.requests
      = w.requests ++ loginRequest credentials :: rest := by
  rcases res with _ | ⟨(_ | json) | (_ | json)⟩
  · exact ⟨[], by simp [login, loginResume, loginDispatch, requests_fetch]⟩
  · exact ⟨[], by simp [login, loginResume, loginDispatch, requests_fetch]⟩
  · by_cases isNull : json = .null
    · subst isNull
      exact ⟨[], by simp [login, loginResume, Json.prop, loginDispatch, requests_fetch]⟩
    · obtain ⟨rest, hrest⟩ := attemptLoginWithToken_requests
        ((loginDispatch w credentials).setItem "token" (json.field "token")) me
      refine ⟨rest, ?_⟩
      simp only [login, loginResume, prop_of_ne_null json "token" isNull]
      rw [hrest, requests_setItem, loginDispatch, requests_fetch]
      simp
  · exact ⟨[], by simp [login, loginResume, loginDispatch, requests_fetch]⟩
  · by_cases isNull : json = .null
    · subst isNull
      exact ⟨[], by
        simp [login, loginResume, Json.prop, loginDispatch, requests_fetch,
          requests_consoleLog]⟩
    · exact ⟨[], by
        simp [login, loginResume, prop_of_ne_null json "error" isNull, loginDispatch,
          requests_fetch, requests_consoleLog, requests_setLoginErr]⟩

/-- C8 fails as stated: `register` parses the body before it tests `response.ok`. On an OK
response whose body is not JSON (an empty body, say) it throws before `login` is called:
the only request is the register request, although the login would have succeeded. On a
non-OK response whose body is not JSON it throws before `regErr` is set. -/
theorem register_unparsed_body :
    (register {} [("username", .str "ann"), ("password", .str "abcd")]
        (.resolved (.ok none)) (.resolved (.ok (some (.obj [("token", .str "t1")]))))
        (.resolved (.ok (some [("id", .num ⟨7, by decide⟩), ("username", .str "ann")])))
      = ⟨{ trace := [.fetch (registerRequest [("username", .str "ann"),
            ("password", .str "abcd")])] }, .threw .syntaxError⟩
    ∧ (register {} [("username", .str "ann"), ("password", .str "abcd")]
        (.resolved (.ok none)) (.resolved (.ok (some (.obj [("token", .str "t1")]))))
        (.resolved (.ok (some [("id", .num ⟨7, by decide⟩), ("username", .str "ann")])))
      ).world.requests
      = [registerRequest [("username", .str "ann"), ("password", .str "abcd")]])
    ∧ (register {} [("username", .str "ann"), ("password", .str "abcd")]
        (.resolved (.failed none)) .rejected .rejected
      = ⟨{ trace := [.fetch (registerRequest [("username", .str "ann"),
            ("password", .str "abcd")])] }, .threw .syntaxError⟩
    ∧ (register {} [("username", .str "ann"), ("password", .str "abcd")]
        (.resolved (.failed none)) .rejected .rejected).world.regErr = none) := by
  refine ⟨⟨?_, ?_⟩, ?_, ?_⟩ <;> rfl

/-- C8 (as amended): for every credentials object, `register` with an OK response whose body
parses as JSON runs `login` on the very same credentials (the login request carrying them
follows the register request), and when that `login` call throws, `regErr` becomes the
registered-but-unable-to-login message; with a non-OK response whose body parses as JSON
`regErr` becomes the account-may-already-exist message and no login request is issued. -/
theorem register_outcomes (w : World) (credentials : JsObject) (json : Json)
    (loginRes : Fetched Json) (me : Fetched JsObject) :
    (∃ rest,
      (register w credentials (.resolved (.ok (some json))) loginRes me).world.requests
        = w.requests ++ registerRequest credentials :: loginRequest credentials :: rest)
    ∧ ((login (registerDispatch w credentials) credentials loginRes me).completion = .returned →
        register w credentials (.resolved (.ok (some json))) loginRes me
          = login (registerDispatch w credentials) credentials loginRes me)
    ∧ ((login (registerDispatch w credentials) credentials loginRes me).completion ≠ .returned →
        (register w credentials (.resolved (.ok (some json))) loginRes me).world.regErr
            = some "Account registered but unable to login at this time."
        ∧ register w credentials (.resolved (.ok (some json))) loginRes me
            = ⟨(login (registerDispatch w credentials) credentials loginRes me).world.setRegErr
                (some "Account registered but unable to login at this time."), .returned⟩)
    ∧ (register w credentials (.resolved (.failed (some json))) loginRes me).world.regErr
        = some "Account may already exist, please try again."
    ∧ (register w credentials (.resolved (.failed (some json))) loginRes me).world.requests
        = w.requests ++ [registerRequest credentials]
    ∧ register w credentials (.resolved (.failed (some json))) loginRes me
        = ⟨((registerDispatch w credentials).setRegErr
            (some "Account may already exist, please try again.")).consoleLog json,
          .returned⟩ := by
  refine ⟨?_, ?_, ?_, ?_, ?_, ?_⟩
  · obtain ⟨rest, hrest⟩ := login_requests (registerDispatch w credentials) credentials
      loginRes me
    refine ⟨rest, ?_⟩
    have start : (registerDispatch w credentials).requests
        = w.requests ++ [registerRequest credentials] := by
      simp [registerDispatch, requests_fetch]
    cases hc : (login (registerDispatch w credentials) credentials loginRes me).completion with
    | returned =>
      simp [register, registerResume, hc, hrest, start]
    | threw error =>
      have run : register w credentials (.resolved (.ok (some json))) loginRes me
          = ⟨(login (registerDispatch w credentials) credentials loginRes me).world.setRegErr
              (some "Account registered but unable to login at this time."), .returned⟩ := by
        simp [register, registerResume, hc]
      rw [run, requests_setRegErr, hrest, start]
      simp
  · intro hc
    simp [register, registerResume, hc]
  · intro hc
    cases hcase : (login (registerDispatch w credentials) credentials loginRes me).completion with
    | returned => exact absurd hcase hc
    | threw error => simp [register, registerResume, hcase, World.setRegErr]
  · simp [register, registerResume, World.setRegErr, World.consoleLog]
  · simp [register, registerResume, registerDispatch, requests_setRegErr, requests_consoleLog,
      requests_fetch]
  · simp [register, registerResume]

/-- Witness for C8 (as amended): registration succeeds and the login request is rejected, so
`login` throws. -/
theorem register_outcomes_witness :
    (login (registerDispatch {} [("username", .str "ann"), ("password", .str "abcd")])
        [("username", .str "ann"), ("password", .str "abcd")] .rejected .rejected).completion
      ≠ .returned
    ∧ (register {} [("username", .str "ann"), ("password", .str "abcd")]
        (.resolved (.ok (some (.obj [("id", .num ⟨7, by decide⟩), ("username", .str "ann")]))))
        .rejected .rejected).world.regErr
      = some "Account registered but unable to login at this time." :=
  ⟨by decide,
    ((register_outcomes {} [("username", .str "ann"), ("password", .str "abcd")]
      (.obj [("id", .num ⟨7, by decide⟩), ("username", .str "ann")]) .rejected
      .rejected).2.2.1 (by decide)).1⟩

/-- C9: for every username/password pair with an empty username or an empty password, the
button of the Login form and the button of the Register form are both disabled, and
submitting either form through its button does nothing: no request is issued. -/
theorem forms_disabled_on_empty_field (w : World) (username password : String)
    (empty : username = "" ∨ password = "") :
    Login.disabled username password = true
    ∧ Register.disabled username password = true
    ∧ Login.form w username password = w
    ∧ Register.form w username password = w
    ∧ (Login.form w username password).requests = w.requests
    ∧ (Register.form w username password).requests = w.requests := by
  have loginOff : Login.disabled username password = true := by
    rcases empty with h | h <;> simp [Login.disabled, truthy, h]
  have registerOff : Register.disabled username password = true := by
    rcases empty with h | h <;> simp [Register.disabled, truthy, h]
  simp [Login.form, Register.form, loginOff, registerOff]

/-- Witness for C9: empty username, password `abcd`. -/
theorem forms_disabled_on_empty_field_witness :
    Login.disabled "" "abcd" = true
    ∧ Register.disabled "" "abcd" = true
    ∧ Login.form {} "" "abcd" = {}
    ∧ Register.form {} "" "abcd" = {} :=
  ⟨(forms_disabled_on_empty_field {} "" "abcd" (Or.inl rfl)).1,
    (forms_disabled_on_empty_field {} "" "abcd" (Or.inl rfl)).2.1,
    (forms_disabled_on_empty_field {} "" "abcd" (Or.inl rfl)).2.2.1,
    (forms_disabled_on_empty_field {} "" "abcd" (Or.inl rfl)).2.2.2.1⟩

/-- C10: for every Login form submit, the handler issues the login request and then clears
`loginErr` to `null`, both before the response is handled; when the response is a failure
with any JSON payload, the message `login` writes (it writes one unless the payload is
`null`, on which the read of `json.error` throws) comes after the clear in the order of
effects and is the value of `loginErr` afterwards, also when the response is handled in any
later world. -/
theorem login_submit_clear_precedes_failure_message (w : World) (username password : String)
    (json : Json) (me : Fetched JsObject) :
    (Login.submit w username password).loginErr = none
    ∧ (Login.submit w username password).trace
        = w.trace ++ [.fetch (loginRequest [("username", .str username),
            ("password", .str password)]), .setLoginErr none]
    ∧ (loginResume (Login.submit w username password) (.resolved (.failed (some json)))
        me).world.trace
        = w.trace ++ [.fetch (loginRequest [("username", .str username),
            ("password", .str password)]), .setLoginErr none, .consoleLog json]
          ++ (if json = .null then []
              else [.setLoginErr (some (if json.field "error" = .str "not authorized"
                then "Password is incorrect (hint: must be at least 4 characters)."
                else "User does not exist."))])
    ∧ (loginResume (Login.submit w username password) (.resolved (.failed (some json)))
        me).world.loginErr
        = (if json = .null then none
            else some (if json.field "error" = .str "not authorized"
              then "Password is incorrect (hint: must be at least 4 characters)."
              else "User does not exist."))
    ∧ ∀ later : World,
        (loginResume later (.resolved (.failed (some json))) me).world.loginErr
          = (if json = .null then later.loginErr
              else some (if json.field "error" = .str "not authorized"
                then "Password is incorrect (hint: must be at least 4 characters)."
                else "User does not exist."))
        ∧ (loginResume later (.resolved (.failed (some json))) me).world.trace
          = later.trace ++ [.consoleLog json]
            ++ (if json = .null then []
                else [.setLoginErr (some (if json.field "error" = .str "not authorized"
                  then "Password is incorrect (hint: must be at least 4 characters)."
                  else "User does not exist."))]) := by
  by_cases isNull : json = .null
  · subst isNull
    refine ⟨?_, ?_, ?_, ?_, ?_⟩
    · simp [Login.submit, World.setLoginErr]
    · simp [Login.submit, loginDispatch, World.setLoginErr, World.fetch]
    · simp [Login.submit, loginResume, Json.prop, loginDispatch, World.setLoginErr,
        World.fetch, World.consoleLog]
    · simp [Login.submit, loginResume, Json.prop, World.setLoginErr, World.consoleLog]
    · intro later
      simp [loginResume, Json.prop, World.consoleLog]
  · have read := prop_of_ne_null json "error" isNull
    refine ⟨?_, ?_, ?_, ?_, ?_⟩
    · simp [Login.submit, World.setLoginErr]
    · simp [Login.submit, loginDispatch, World.setLoginErr, World.fetch]
    · simp [Login.submit, loginResume, read, isNull, loginDispatch, loginFailureMessage,
        World.setLoginErr, World.fetch, World.consoleLog]
    · simp [loginResume, read, isNull, loginFailureMessage, World.setLoginErr]
    · intro later
      simp [loginResume, read, isNull, loginFailureMessage, World.setLoginErr,
        World.consoleLog]

end Properties
